import Mathlib

/-!
Verification development for the fiberinternet scraper pipeline
(`scraper/scrape_fiber.py`, `scraper/scrape_tv.py`, `scraper/scrape_mobil.py`).

The Python code is shallowly embedded: strings are `String`/`List Char`,
Python `int` is `Int`/`Nat`, records are structures, a provider producer is
an `Except` value (`.error` models a raised exception), and the effectful
`main` functions are modelled as pure functions returning the observable
events (what gets saved, whether an error is logged, the process exit code).

Modelling notes for Python primitives:
- `str.lower` is modelled on ASCII letters only (the source only tests
  ASCII markers such as "gbit", "mbit", "mdr"; non-ASCII uppercase such as
  'Å' does not occur in the marker tests).
- `float(...)` is modelled as exact decimal parsing into a pair
  mantissa * 10^exponent; binary rounding of IEEE doubles, underscore
  separators and the literals inf/nan are not modelled.  For the inputs in
  the theorems below the exact value is used; `inf`/`nan` behave
  observationally like a parse failure because every call site immediately
  applies `int(...)`, which raises on them (caught by the bare `except`).
  Overflow of `float` to infinity is approximated by the 2^1024 bound.
- `int(x)` on a float truncates toward zero; modelled by `intTruncDivNat`.
- `re.findall(r"\d+", s)[0]` / `re.findall(r"\d+\.?\d*", s)[0]` are
  modelled by `firstDigitRun` / `firstPriceMatch` (ASCII digits).
-/

set_option maxRecDepth 8000

/-! ## Python string primitives -/

/-- Uppercase/lowercase pairs of the ASCII letters. -/
def asciiCasePairs : List (Char × Char) :=
  [('A', 'a'), ('B', 'b'), ('C', 'c'), ('D', 'd'), ('E', 'e'), ('F', 'f'),
   ('G', 'g'), ('H', 'h'), ('I', 'i'), ('J', 'j'), ('K', 'k'), ('L', 'l'),
   ('M', 'm'), ('N', 'n'), ('O', 'o'), ('P', 'p'), ('Q', 'q'), ('R', 'r'),
   ('S', 's'), ('T', 't'), ('U', 'u'), ('V', 'v'), ('W', 'w'), ('X', 'x'),
   ('Y', 'y'), ('Z', 'z')]

/-- Model of Python `str.lower` on one character (ASCII range only). -/
def pyLowerChar (c : Char) : Char :=
  match asciiCasePairs.find? (fun p => p.1 == c) with
  | some p => p.2
  | none => c

/-- Model of Python `str.lower` (ASCII range only). -/
def lowerL (l : List Char) : List Char := l.map pyLowerChar

/-- Whether `pat` is a prefix of `l` (helper for substring search/replace). -/
def isPrefixL : List Char → List Char → Bool
  | [], _ => true
  | _ :: _, [] => false
  | p :: ps, c :: cs => p = c && isPrefixL ps cs

/-- Fuel-driven worker for `pyReplace`; the fuel is the length of the list,
which suffices because every step consumes at least one character. -/
def replaceFuel : Nat → List Char → List Char → List Char → List Char
  | 0, l, _, _ => l
  | _ + 1, [], _, _ => []
  | f + 1, c :: t, pat, rep =>
    if pat ≠ [] ∧ isPrefixL pat (c :: t) then
      rep ++ replaceFuel f (List.drop pat.length (c :: t)) pat rep
    else c :: replaceFuel f t pat rep

/-- Model of Python `str.replace`: replace all non-overlapping occurrences of
`pat` left to right (the source never calls it with an empty pattern). -/
def pyReplace (l pat rep : List Char) : List Char := replaceFuel l.length l pat rep

/-- Model of the Python `in` operator on strings (substring containment). -/
def containsSub (pat : List Char) : List Char → Bool
  | [] => pat.isEmpty
  | c :: t => isPrefixL pat (c :: t) || containsSub pat t

/-- Numeric value of a list of decimal digit characters (model of Python
`int` applied to a digit string). -/
def digitsToNat (l : List Char) : Nat :=
  l.foldl (fun n c => n * 10 + (c.toNat - 48)) 0

/-- Model of `re.findall(r"\d+", s)[0]`: the first maximal run of (ASCII)
digits, or `none` if the string contains no digit. -/
def firstDigitRun (l : List Char) : Option (List Char) :=
  match (l.dropWhile (fun c => !c.isDigit)).takeWhile Char.isDigit with
  | [] => none
  | ds => some ds

/-- Model of `re.findall(r"\d+\.?\d*", s)[0]`: the first maximal digit run,
optionally followed by a dot and a further digit run. -/
def firstPriceMatch (l : List Char) : Option (List Char) :=
  let l' := l.dropWhile (fun c => !c.isDigit)
  match l'.takeWhile Char.isDigit with
  | [] => none
  | ds =>
    match l'.dropWhile Char.isDigit with
    | '.' :: t => some (ds ++ '.' :: t.takeWhile Char.isDigit)
    | _ => some ds

/-! ## Model of Python `float(...)` followed by `int(...)` -/

/-- Whitespace stripped by Python `float` before parsing. -/
def isPyWs (c : Char) : Bool :=
  c = ' ' || c = '\t' || c = '\n' || c = '\x0d' || c = '\x0b' || c = '\x0c'

/-- Strip leading and trailing whitespace (Python `float` tolerates both). -/
def stripWs (l : List Char) : List Char :=
  ((l.dropWhile isPyWs).reverse.dropWhile isPyWs).reverse

/-- Consume an optional leading sign, returning the sign and the rest. -/
def takeSign : List Char → Int × List Char
  | '+' :: t => (1, t)
  | '-' :: t => (-1, t)
  | l => (1, l)

/-- Parse the mantissa `digits [. digits]` (at least one digit overall).
Returns the combined digit value, the number of fractional digits, and the
unconsumed rest. -/
def takeMantissa (l : List Char) : Option (Nat × Nat × List Char) :=
  let ip := l.takeWhile Char.isDigit
  match l.dropWhile Char.isDigit with
  | '.' :: t =>
    let fp := t.takeWhile Char.isDigit
    if ip.isEmpty && fp.isEmpty then none
    else some (digitsToNat (ip ++ fp), fp.length, t.dropWhile Char.isDigit)
  | r1 => if ip.isEmpty then none else some (digitsToNat ip, 0, r1)

/-- Parse the optional exponent part `[(e|E) [sign] digits]`, requiring the
input to be fully consumed. Returns the exponent value. -/
def takeExpPart (l : List Char) : Option Int :=
  match l with
  | [] => some 0
  | c :: t =>
    if c = 'e' || c = 'E' then
      let t2 := (takeSign t).2
      let ed := t2.takeWhile Char.isDigit
      if ed.isEmpty || !(t2.dropWhile Char.isDigit).isEmpty then none
      else some ((takeSign t).1 * (digitsToNat ed : Int))
    else none

/-- Exact value of a parsed Python float literal: `mant * 10 ^ exp10`. -/
structure PyFloat where
  mant : Int
  exp10 : Int
deriving DecidableEq

/-- Model of Python `float(s)`: `none` models a raised `ValueError`. -/
def pyFloat? (l0 : List Char) : Option PyFloat :=
  let l := stripWs l0
  if l.isEmpty then none
  else
    match takeMantissa (takeSign l).2 with
    | none => none
    | some (mv, fl, rest) =>
      match takeExpPart rest with
      | none => none
      | some ex => some ⟨(takeSign l).1 * (mv : Int), ex - (fl : Int)⟩

/-- Magnitude at which Python floats overflow to infinity (approximate
bound; `int(inf)` raises `OverflowError`).  The literal is exactly
`2 ^ 1024`, spelled out so that kernel evaluation does not have to unfold a
1024-step power. -/
def pyFloatOverflow : Int := 179769313486231590772930519078902473361797697894230657273430081157732675805500963132708477322407536021120113879871393357658789768814416622492847430639474124377767893424865485276302219601246094119453082952085005768838150682342462881473913110540827237163350510684586298239947245938479716304835356329624224137216

theorem pyFloatOverflow_eq_two_pow : pyFloatOverflow = (2 : Int) ^ (1024 : Nat) := by
  norm_num [pyFloatOverflow]

/-- Integer division of `m` by the positive natural `d`, truncating toward
zero (the semantics of Python `int(...)` applied to a float). -/
def intTruncDivNat (m : Int) (d : Nat) : Int :=
  if 0 ≤ m then ((m.toNat / d : Nat) : Int) else -(((-m).toNat / d : Nat) : Int)

/-- Reject values past the float overflow threshold (`int(inf)` raises). -/
def pyfRangeCheck (v : Int) : Option Int :=
  if v ≤ -pyFloatOverflow || pyFloatOverflow ≤ v then none else some v

/-- Model of Python `int(x)` on a parsed float value: truncates toward zero,
and models overflow to infinity (whose `int` raises, i.e. `none`).  A
non-zero mantissa with decimal exponent at least 309 always overflows. -/
def pyfToInt? (x : PyFloat) : Option Int :=
  if x.mant = 0 then some 0
  else if (309 : Int) ≤ x.exp10 then none
  else if 0 ≤ x.exp10 then pyfRangeCheck (x.mant * ((10 : Int) ^ x.exp10.toNat))
  else pyfRangeCheck (intTruncDivNat x.mant ((10 : Nat) ^ (-x.exp10).toNat))

/-- Multiply a parsed float by 1000 (the `value * 1000` step of the
gigabit branch), exactly. -/
def pyfScale1000 (x : PyFloat) : PyFloat := ⟨x.mant * 1000, x.exp10⟩

/-! ## Unit normalizers (from `scraper/scrape_fiber.py`) -/

/-- Gigabit branch of `normalize_speed` (lines 121-126):
`float(speed_str.replace('gbit', '').replace('gb', '').replace('/s', ''))`
times 1000, truncated; `none` models the caught exception / absent marker. -/
def speedGbBranch (s : List Char) : Option Int :=
  if containsSub "gbit".data s || containsSub "gb".data s then
    (pyFloat? (pyReplace (pyReplace (pyReplace s "gbit".data []) "gb".data []) "/s".data [])).bind
      (fun q => pyfToInt? (pyfScale1000 q))
  else none

/-- Megabit branch of `normalize_speed` (lines 129-134). -/
def speedMbBranch (s : List Char) : Option Int :=
  if containsSub "mbit".data s || containsSub "mb".data s then
    (pyFloat? (pyReplace (pyReplace (pyReplace s "mbit".data []) "mb".data []) "/s".data [])).bind
      pyfToInt?
  else none

/-- Bare-number fallback of `normalize_speed` (lines 137-143):
`int(re.findall(r"\d+", s)[0])`, or 0 if the string has no digit. -/
def speedFallback (s : List Char) : Int :=
  match firstDigitRun s with
  | some ds => (digitsToNat ds : Int)
  | none => 0

/-- Embedding of `normalize_speed` (scrape_fiber.py lines 113-145).
`speed_str = str(speed_str).lower().replace(' ', '')`; then the gigabit
branch, the megabit branch and the bare-number fallback, in order; each
branch falls through to the next on a raised-and-caught conversion error. -/
def normalize_speed (speed_str : String) : Int :=
  if speed_str = "" then 0
  else
    let s := pyReplace (lowerL speed_str.data) " ".data []
    match speedGbBranch s with
    | some v => v
    | none =>
      match speedMbBranch s with
      | some v => v
      | none => speedFallback s

/-- Embedding of `normalize_price` (scrape_fiber.py lines 147-162).
`price_str = str(price_str).replace(' ', '').replace('kr', '').replace('dkk', '').replace(',', '.')`,
then `int(float(first match of \d+\.?\d*))`, defaulting to 0. -/
def normalize_price (price_str : String) : Int :=
  if price_str = "" then 0
  else
    let s := pyReplace (pyReplace (pyReplace (pyReplace price_str.data " ".data [])
      "kr".data []) "dkk".data []) ",".data ".".data
    match firstPriceMatch s with
    | none => 0
    | some m =>
      match (pyFloat? m).bind pyfToInt? with
      | none => 0
      | some v => v

/-- Embedding of `normalize_contract_length` (scrape_fiber.py lines 164-200).
Lowercase and despace; then the month branch, the year branch and the
bare-number fallback, in order; a branch without digits falls through. -/
def normalize_contract_length (contract_str : String) : Int :=
  if contract_str = "" then 0
  else
    let s := pyReplace (lowerL contract_str.data) " ".data []
    let monthRes : Option Int :=
      if containsSub "måned".data s || containsSub "mdr".data s then
        (firstDigitRun s).map (fun ds => (digitsToNat ds : Int))
      else none
    match monthRes with
    | some v => v
    | none =>
      let yearRes : Option Int :=
        if containsSub "år".data s || containsSub "year".data s then
          (firstDigitRun s).map (fun ds => (digitsToNat ds : Int) * 12)
        else none
      match yearRes with
      | some v => v
      | none =>
        match firstDigitRun s with
        | some ds => (digitsToNat ds : Int)
        | none => 0

/-! ## Fiber pipeline (from `scraper/scrape_fiber.py`) -/

/-- Raw candidate plan as handed over by a provider producer: the fields the
core reads via `plan.get(...)`, with the `.get` defaults applied at the use
site (`udbyder` keeps its absence observable because its default is the
configured provider name). -/
structure RawFiberPlan where
  udbyder : Option String
  hastighed_mbit : String
  pris_mdr : String
  bindingstid_mdr : String
  kampagne : String
  plan_navn : String
  beskrivelse : String
  features : List String
  rating : Int
deriving DecidableEq

/-- Normalized fiber plan (the dict built in `scrape_all_providers`). -/
structure FiberPlan where
  udbyder : String
  hastighed_mbit : Int
  pris_mdr : Int
  bindingstid_mdr : Int
  kampagne : String
  plan_navn : String
  beskrivelse : String
  features : List String
  rating : Int
deriving DecidableEq

/-- One entry of the `PROVIDERS` table: name, producer, enabled flag.  The
producer is modelled as an `Except` value; `.error` models the producer
call raising an exception. -/
structure FiberProvider where
  name : String
  scraper : Except String (List RawFiberPlan)
  enabled : Bool

/-- The `normalized_plan` dict construction (scrape_fiber.py lines 219-229). -/
def normalizePlan (providerName : String) (plan : RawFiberPlan) : FiberPlan :=
  { udbyder := plan.udbyder.getD providerName
    hastighed_mbit := normalize_speed plan.hastighed_mbit
    pris_mdr := normalize_price plan.pris_mdr
    bindingstid_mdr := normalize_contract_length plan.bindingstid_mdr
    kampagne := plan.kampagne
    plan_navn := plan.plan_navn
    beskrivelse := plan.beskrivelse
    features := plan.features
    rating := plan.rating }

/-- The per-provider body of `scrape_all_providers` (lines 206-242): skip
disabled providers, catch producer failures, normalize each raw plan and
keep it only if `hastighed_mbit > 0 and pris_mdr > 0`. -/
def fiberStep (acc : List FiberPlan) (provider : FiberProvider) : List FiberPlan :=
  if !provider.enabled then acc
  else
    match provider.scraper with
    | .error _ => acc
    | .ok plans =>
      acc ++ plans.foldl (fun np plan =>
        let normalized := normalizePlan provider.name plan
        if 0 < normalized.hastighed_mbit ∧ 0 < normalized.pris_mdr then np ++ [normalized]
        else np) []

/-- Embedding of `scrape_all_providers` (scrape_fiber.py lines 202-244);
the global `PROVIDERS` table is passed as the `providers` parameter. -/
def scrape_all_providers (providers : List FiberProvider) : List FiberPlan :=
  providers.foldl fiberStep []

/-- Observable result of the fiber `main` (lines 263-288): the list of
`save_to_json` invocations (output path and plan list) and the exit code. -/
structure FiberMainResult where
  saves : List (String × List FiberPlan)
  exitCode : Nat
deriving DecidableEq

/-- Embedding of the fiber `main`: scrape everything and unconditionally
save the result to the two output paths; there is no change detection, no
force flag, and no emptiness check. -/
def fiberMain (providers : List FiberProvider) : FiberMainResult :=
  let all_plans := scrape_all_providers providers
  { saves := [("data/fiber.json", all_plans), ("scraper/data/fiber.json", all_plans)]
    exitCode := 0 }

/-! ## TV pipeline (from `scraper/scrape_tv.py`; `scrape_mobil.py` is
line-for-line identical up to field names `pakke_navn`/`data_GB` and
counter names) -/

/-- A TV package record: the fields the TV pipeline reads or writes
(`udbyder`, `pakke_navn`, `pris_mdr`, `kampagne` in `detect_changes`;
`scraped_at` and `provider` are stamped by the aggregator; `antal_kanaler`
is the channel count carried through from the producer). -/
structure TvPkg where
  udbyder : String
  pakke_navn : String
  antal_kanaler : Int
  pris_mdr : Int
  kampagne : String
  scraped_at : String
  provider : String
deriving DecidableEq

/-- The f-string lookup key of `detect_changes` (scrape_tv.py lines 210-211):
`f"{pkg.get('udbyder', '')}-{pkg.get('pakke_navn', '')}-{pkg.get('pris_mdr', '')}"`.
Note that the monthly price is part of the key. -/
def pkgKey (p : TvPkg) : String :=
  p.udbyder ++ "-" ++ p.pakke_navn ++ "-" ++ toString p.pris_mdr

/-- Insert into a Python-dict model (association list): overwriting an
existing key keeps its position, a new key is appended. -/
def insertLookup (acc : List (String × TvPkg)) (k : String) (p : TvPkg) :
    List (String × TvPkg) :=
  if (acc.find? (fun kv => kv.1 == k)).isSome then
    acc.map (fun kv => if kv.1 == k then (k, p) else kv)
  else acc ++ [(k, p)]

/-- The dict comprehension building `old_lookup` / `new_lookup`
(last-write-wins on key collisions, iteration in insertion order). -/
def buildLookup (data : List TvPkg) : List (String × TvPkg) :=
  data.foldl (fun acc p => insertLookup acc (pkgKey p) p) []

/-- Dict membership / item access on the lookup model. -/
def lookupD (d : List (String × TvPkg)) (k : String) : Option TvPkg :=
  (d.find? (fun kv => kv.1 == k)).map Prod.snd

/-- The `changes` counter dict of `detect_changes`, in source field order. -/
structure Changes where
  new_packages : Nat
  updated_packages : Nat
  removed_packages : Nat
  price_changes : Nat
  promotion_changes : Nat
deriving DecidableEq

/-- First loop of `detect_changes` (lines 214-216): count keys of the new
lookup absent from the old lookup. -/
def diffLoopNew (oldL newL : List (String × TvPkg)) (c : Changes) : Changes :=
  newL.foldl (fun c kv =>
    match lookupD oldL kv.1 with
    | none => { c with new_packages := c.new_packages + 1 }
    | some _ => c) c

/-- Second loop of `detect_changes` (lines 219-221): count keys of the old
lookup absent from the new lookup. -/
def diffLoopRemoved (oldL newL : List (String × TvPkg)) (c : Changes) : Changes :=
  oldL.foldl (fun c kv =>
    match lookupD newL kv.1 with
    | none => { c with removed_packages := c.removed_packages + 1 }
    | some _ => c) c

/-- Body of the third loop of `detect_changes` (lines 224-237) for one item
of the new lookup: for a key present in both lookups, compare price and
promotion.  The promotion branch increments `updated_packages` only when
the global counter is still zero (the "Don't double count" guard of the
source, checked after the price branch of the same iteration). -/
def updStep (oldL : List (String × TvPkg)) (c : Changes) (kv : String × TvPkg) : Changes :=
  match lookupD oldL kv.1 with
  | none => c
  | some old_package =>
    let c := if old_package.pris_mdr ≠ kv.2.pris_mdr then
        { c with price_changes := c.price_changes + 1,
                 updated_packages := c.updated_packages + 1 }
      else c
    if old_package.kampagne ≠ kv.2.kampagne then
      let c := { c with promotion_changes := c.promotion_changes + 1 }
      if c.updated_packages = 0 then { c with updated_packages := c.updated_packages + 1 }
      else c
    else c

/-- Third loop of `detect_changes` (lines 224-237). -/
def diffLoopUpdated (oldL newL : List (String × TvPkg)) (c : Changes) : Changes :=
  newL.foldl (updStep oldL) c

/-- Embedding of `detect_changes` (scrape_tv.py lines 199-239). -/
def detect_changes (old_data new_data : List TvPkg) : Changes :=
  let oldL := buildLookup old_data
  let newL := buildLookup new_data
  diffLoopUpdated oldL newL (diffLoopRemoved oldL newL (diffLoopNew oldL newL ⟨0, 0, 0, 0, 0⟩))

/-- `any(changes.values())` of the TV/mobile `main`. -/
def anyChangesB (c : Changes) : Bool :=
  decide (c.new_packages ≠ 0) || decide (c.updated_packages ≠ 0) ||
  decide (c.removed_packages ≠ 0) || decide (c.price_changes ≠ 0) ||
  decide (c.promotion_changes ≠ 0)

/-- One entry of the `TV_PROVIDERS` table. -/
structure TvProvider where
  name : String
  scraper : Except String (List TvPkg)
  enabled : Bool

/-- Accumulated state of `scrape_tv_providers`: collected packages and the
per-provider success/failure counters. -/
structure AggResult where
  packages : List TvPkg
  successful : Nat
  failed : Nat
deriving DecidableEq

/-- The allow-list of key providers processed in light mode (line 170). -/
def lightTvAllowlist : List String := ["YouSee", "Waoo", "Stofa", "Boxer", "Norlys"]

/-- Metadata stamping of a scraped package (lines 178-180). -/
def tagPkg (name now : String) (p : TvPkg) : TvPkg :=
  { p with scraped_at := now, provider := name }

/-- Loop body of `scrape_tv_providers` (lines 157-192): skip disabled
providers; in light mode skip providers outside the allow-list; a raising
producer or an empty result counts as a failure; a non-empty result is
tagged and collected and counts as a success. -/
def tvStep (stype now : String) (acc : AggResult) (pc : TvProvider) : AggResult :=
  if !pc.enabled then acc
  else if stype = "light" ∧ pc.name ∉ lightTvAllowlist then acc
  else
    match pc.scraper with
    | .error _ => { acc with failed := acc.failed + 1 }
    | .ok pkgs =>
      if pkgs = [] then { acc with failed := acc.failed + 1 }
      else { acc with packages := acc.packages ++ pkgs.map (tagPkg pc.name now),
                      successful := acc.successful + 1 }

/-- Embedding of `scrape_tv_providers` (scrape_tv.py lines 149-197).  The
global `TV_PROVIDERS` table is passed as the `providers` parameter, and
`now` is the `datetime.now().isoformat()` timestamp of the run. -/
def scrape_tv_providers (providers : List TvProvider) (stype now : String) : AggResult :=
  providers.foldl (tvStep stype now) ⟨[], 0, 0⟩

/-- Observable result of the TV/mobile `main` (lines 241-278): the data
passed to `save_data` (none if not invoked), whether the
"No data scraped" error was logged, and the process exit code. -/
structure TvMainResult where
  savedData : Option (List TvPkg)
  errorLogged : Bool
  exitCode : Nat
deriving DecidableEq

/-- Embedding of the TV `main`: scrape, bail out (with a logged error and a
plain `return`, hence exit code 0) on an empty result, else diff against
the previous snapshot and save only when some change counter is non-zero
or the force flag is set.  The previously persisted snapshot is passed as
`existing` (`load_existing_data` is file I/O), and `save_data` is modelled
as succeeding (a persistence I/O failure would propagate). -/
def tvMain (existing : List TvPkg) (providers : List TvProvider)
    (stype now : String) (force : Bool) : TvMainResult :=
  let new_data := (scrape_tv_providers providers stype now).packages
  if new_data = [] then { savedData := none, errorLogged := true, exitCode := 0 }
  else
    let changes := detect_changes existing new_data
    if anyChangesB changes || force then
      { savedData := some new_data, errorLogged := false, exitCode := 0 }
    else { savedData := none, errorLogged := false, exitCode := 0 }

/-! ## Helper lemmas: characters flowing through the string primitives -/

theorem mem_of_mem_replaceFuel :
    ∀ (f : Nat) (l : List Char) {pat rep : List Char} {c : Char},
      c ∈ replaceFuel f l pat rep → c ∈ rep ∨ c ∈ l := by
  intro f
  induction f with
  | zero => intro l pat rep c h; exact Or.inr h
  | succ f ih =>
    intro l pat rep c h
    match l with
    | [] => simp [replaceFuel] at h
    | a :: t =>
      rw [replaceFuel] at h
      split at h
      · rcases List.mem_append.mp h with h1 | h2
        · exact Or.inl h1
        · rcases ih _ h2 with h3 | h4
          · exact Or.inl h3
          · exact Or.inr (List.mem_of_mem_drop h4)
      · rcases List.mem_cons.mp h with h1 | h2
        · exact Or.inr (h1 ▸ List.mem_cons_self a t)
        · rcases ih _ h2 with h3 | h4
          · exact Or.inl h3
          · exact Or.inr (List.mem_cons_of_mem a h4)

theorem mem_of_mem_pyReplace {l pat rep : List Char} {c : Char}
    (h : c ∈ pyReplace l pat rep) : c ∈ rep ∨ c ∈ l :=
  mem_of_mem_replaceFuel _ _ h

/-- Replacing by the empty string only ever deletes characters. -/
theorem mem_of_mem_pyReplace_nil {l pat : List Char} {c : Char}
    (h : c ∈ pyReplace l pat []) : c ∈ l := by
  rcases mem_of_mem_pyReplace h with h1 | h2
  · cases h1
  · exact h2

theorem pyLowerChar_eq_dash {c : Char} (h : pyLowerChar c = '-') : c = '-' := by
  have hall : ∀ p ∈ asciiCasePairs, p.2 ≠ '-' := by decide
  unfold pyLowerChar at h
  split at h
  · rename_i p hp
    exact absurd h (hall p (List.mem_of_find?_eq_some hp))
  · exact h

theorem lowerL_no_dash {l : List Char} (h : ∀ c ∈ l, c ≠ '-') :
    ∀ c ∈ lowerL l, c ≠ '-' := by
  intro c hc
  rcases List.mem_map.mp hc with ⟨c0, hc0, rfl⟩
  intro hcontra
  exact h c0 hc0 (pyLowerChar_eq_dash hcontra)

theorem mem_of_mem_stripWs {l : List Char} {c : Char} (h : c ∈ stripWs l) : c ∈ l := by
  unfold stripWs at h
  rw [List.mem_reverse] at h
  have h1 := (List.dropWhile_suffix isPyWs).sublist.subset h
  rw [List.mem_reverse] at h1
  exact (List.dropWhile_suffix isPyWs).sublist.subset h1

theorem takeSign_fst_eq_one {l : List Char} (h : ∀ c ∈ l, c ≠ '-') :
    (takeSign l).1 = 1 := by
  unfold takeSign
  split
  · rfl
  · rename_i t
    exact absurd rfl (h '-' (List.mem_cons_self '-' t))
  · rfl

theorem pyFloat?_mant_nonneg {l : List Char} {x : PyFloat}
    (hx : pyFloat? l = some x) (h : ∀ c ∈ l, c ≠ '-') : 0 ≤ x.mant := by
  have hstrip : ∀ c ∈ stripWs l, c ≠ '-' := fun c hc => h c (mem_of_mem_stripWs hc)
  simp only [pyFloat?] at hx
  split at hx
  · cases hx
  · split at hx
    · cases hx
    · split at hx
      · cases hx
      · injection hx with hx
        rw [← hx]
        simp only [takeSign_fst_eq_one hstrip, one_mul]
        exact Int.natCast_nonneg _

theorem intTruncDivNat_nonneg {m : Int} {d : Nat} (h : 0 ≤ m) :
    0 ≤ intTruncDivNat m d := by
  unfold intTruncDivNat
  rw [if_pos h]
  exact Int.natCast_nonneg _

theorem pyfRangeCheck_eq_some {v w : Int} (h : pyfRangeCheck v = some w) : w = v := by
  unfold pyfRangeCheck at h
  split at h
  · cases h
  · injection h with h
    exact h.symm

theorem pyfToInt?_nonneg {x : PyFloat} {v : Int}
    (hm : 0 ≤ x.mant) (hv : pyfToInt? x = some v) : 0 ≤ v := by
  simp only [pyfToInt?] at hv
  split at hv
  · injection hv with hv; omega
  · split at hv
    · cases hv
    · split at hv
      · rw [pyfRangeCheck_eq_some hv]
        exact mul_nonneg hm (pow_nonneg (by norm_num) _)
      · rw [pyfRangeCheck_eq_some hv]
        exact intTruncDivNat_nonneg hm

theorem speedGbBranch_nonneg {s : List Char} {v : Int}
    (hb : speedGbBranch s = some v) (h : ∀ c ∈ s, c ≠ '-') : 0 ≤ v := by
  unfold speedGbBranch at hb
  split at hb
  · rcases Option.bind_eq_some.mp hb with ⟨q, hq, hv⟩
    have hsub : ∀ c ∈ pyReplace (pyReplace (pyReplace s "gbit".data []) "gb".data [])
        "/s".data [], c ≠ '-' := by
      intro c hc
      exact h c (mem_of_mem_pyReplace_nil (mem_of_mem_pyReplace_nil (mem_of_mem_pyReplace_nil hc)))
    have hq0 : 0 ≤ q.mant := pyFloat?_mant_nonneg hq hsub
    have : 0 ≤ (pyfScale1000 q).mant := by
      simp only [pyfScale1000]
      exact mul_nonneg hq0 (by norm_num)
    exact pyfToInt?_nonneg this hv
  · cases hb

theorem speedMbBranch_nonneg {s : List Char} {v : Int}
    (hb : speedMbBranch s = some v) (h : ∀ c ∈ s, c ≠ '-') : 0 ≤ v := by
  unfold speedMbBranch at hb
  split at hb
  · rcases Option.bind_eq_some.mp hb with ⟨q, hq, hv⟩
    have hsub : ∀ c ∈ pyReplace (pyReplace (pyReplace s "mbit".data []) "mb".data [])
        "/s".data [], c ≠ '-' := by
      intro c hc
      exact h c (mem_of_mem_pyReplace_nil (mem_of_mem_pyReplace_nil (mem_of_mem_pyReplace_nil hc)))
    exact pyfToInt?_nonneg (pyFloat?_mant_nonneg hq hsub) hv
  · cases hb

theorem speedFallback_nonneg (s : List Char) : 0 ≤ speedFallback s := by
  unfold speedFallback
  split
  · exact Int.natCast_nonneg _
  · exact le_refl 0

theorem normalize_speed_nonneg (s : String) (h : ∀ c ∈ s.data, c ≠ '-') :
    0 ≤ normalize_speed s := by
  simp only [normalize_speed]
  split
  · exact le_refl 0
  · have hs1 : ∀ c ∈ pyReplace (lowerL s.data) " ".data [], c ≠ '-' := by
      intro c hc
      exact lowerL_no_dash h c (mem_of_mem_pyReplace_nil hc)
    split
    · rename_i v heq
      exact speedGbBranch_nonneg heq hs1
    · split
      · rename_i v heq
        exact speedMbBranch_nonneg heq hs1
      · exact speedFallback_nonneg _

theorem firstPriceMatch_chars {l m : List Char} (hm : firstPriceMatch l = some m) :
    ∀ c ∈ m, c.isDigit ∨ c = '.' := by
  simp only [firstPriceMatch] at hm
  split at hm
  · cases hm
  · split at hm
    · injection hm with hm
      intro c hc
      rw [← hm] at hc
      rcases List.mem_append.mp hc with h1 | h2
      · exact Or.inl (List.mem_takeWhile_imp h1)
      · rcases List.mem_cons.mp h2 with h3 | h4
        · exact Or.inr h3
        · exact Or.inl (List.mem_takeWhile_imp h4)
    · injection hm with hm
      intro c hc
      rw [← hm] at hc
      exact Or.inl (List.mem_takeWhile_imp hc)

theorem digit_or_dot_ne_dash {c : Char} (h : c.isDigit ∨ c = '.') : c ≠ '-' := by
  intro hcontra
  rcases h with h1 | h2
  · rw [hcontra] at h1
    exact absurd h1 (by decide)
  · rw [hcontra] at h2
    cases h2

theorem normalize_price_nonneg (s : String) : 0 ≤ normalize_price s := by
  simp only [normalize_price]
  split
  · exact le_refl 0
  · split
    · exact le_refl 0
    · rename_i m hm
      split
      · exact le_refl 0
      · rename_i v hv
        rcases Option.bind_eq_some.mp hv with ⟨q, hq, hv2⟩
        have hchars : ∀ c ∈ m, c ≠ '-' := fun c hc =>
          digit_or_dot_ne_dash (firstPriceMatch_chars hm c hc)
        exact pyfToInt?_nonneg (pyFloat?_mant_nonneg hq hchars) hv2

/-! ## Helper lemmas: the TV aggregator -/

/-- Componentwise combination of aggregator states. -/
def addAgg (a b : AggResult) : AggResult :=
  ⟨a.packages ++ b.packages, a.successful + b.successful, a.failed + b.failed⟩

theorem addAgg_zero (a : AggResult) : addAgg a ⟨[], 0, 0⟩ = a := by
  simp [addAgg]

theorem addAgg_assoc (a b c : AggResult) :
    addAgg (addAgg a b) c = addAgg a (addAgg b c) := by
  simp [addAgg, List.append_assoc, Nat.add_assoc]

theorem tvStep_add (stype now : String) (s : AggResult) (x : TvProvider) :
    tvStep stype now s x = addAgg s (tvStep stype now ⟨[], 0, 0⟩ x) := by
  unfold tvStep
  split
  · exact (addAgg_zero s).symm
  · split
    · exact (addAgg_zero s).symm
    · split
      · simp [addAgg]
      · split
        · simp [addAgg]
        · simp [addAgg]

theorem foldl_tvStep_add (stype now : String) :
    ∀ (l : List TvProvider) (s : AggResult),
      l.foldl (tvStep stype now) s = addAgg s (l.foldl (tvStep stype now) ⟨[], 0, 0⟩) := by
  intro l
  induction l with
  | nil => intro s; exact (addAgg_zero s).symm
  | cons x l ih =>
    intro s
    rw [List.foldl_cons, List.foldl_cons, ih (tvStep stype now s x),
      ih (tvStep stype now ⟨[], 0, 0⟩ x), tvStep_add stype now s x, addAgg_assoc]

/-- A provider that is actually invoked (enabled, and not skipped by light
mode) and whose producer raises contributes exactly one failure count. -/
theorem tvStep_error (stype now : String) (s : AggResult) (p : TvProvider) (msg : String)
    (hen : p.enabled = true) (herr : p.scraper = Except.error msg)
    (hinv : stype = "light" → p.name ∈ lightTvAllowlist) :
    tvStep stype now s p = { s with failed := s.failed + 1 } := by
  unfold tvStep
  rw [hen]
  simp only [Bool.not_true, Bool.false_eq_true, if_false]
  rw [if_neg (by rintro ⟨h1, h2⟩; exact h2 (hinv h1)), herr]

/-- A provider that is invoked and returns the empty list also contributes
exactly one failure count. -/
theorem tvStep_empty (stype now : String) (s : AggResult) (p : TvProvider)
    (hen : p.enabled = true) (hok : p.scraper = Except.ok ([] : List TvPkg))
    (hinv : stype = "light" → p.name ∈ lightTvAllowlist) :
    tvStep stype now s p = { s with failed := s.failed + 1 } := by
  unfold tvStep
  rw [hen]
  simp only [Bool.not_true, Bool.false_eq_true, if_false]
  rw [if_neg (by rintro ⟨h1, h2⟩; exact h2 (hinv h1)), hok]
  simp

/-! ## Helper lemmas: the change detector -/

/-- Predicate for a key of `l` being absent from the lookup `d`. -/
def keyAbsent (d : List (String × TvPkg)) (kv : String × TvPkg) : Bool :=
  (lookupD d kv.1).isNone

theorem diffLoopNew_fields (oldL : List (String × TvPkg)) :
    ∀ (l : List (String × TvPkg)) (c : Changes),
      (diffLoopNew oldL l c).new_packages = c.new_packages + l.countP (keyAbsent oldL) ∧
      (diffLoopNew oldL l c).updated_packages = c.updated_packages ∧
      (diffLoopNew oldL l c).removed_packages = c.removed_packages ∧
      (diffLoopNew oldL l c).price_changes = c.price_changes ∧
      (diffLoopNew oldL l c).promotion_changes = c.promotion_changes := by
  intro l
  induction l with
  | nil => intro c; simp [diffLoopNew]
  | cons kv l ih =>
    intro c
    unfold diffLoopNew at ih ⊢
    rw [List.foldl_cons, List.countP_cons]
    cases hk : lookupD oldL kv.1 with
    | none =>
      have hkey : keyAbsent oldL kv = true := by simp [keyAbsent, hk]
      simp only [hk]
      rcases ih { c with new_packages := c.new_packages + 1 } with ⟨h1, h2, h3, h4, h5⟩
      refine ⟨?_, h2, h3, h4, h5⟩
      rw [h1, hkey]
      simp
      omega
    | some o =>
      have hkey : keyAbsent oldL kv = false := by simp [keyAbsent, hk]
      simp only [hk]
      rcases ih c with ⟨h1, h2, h3, h4, h5⟩
      refine ⟨?_, h2, h3, h4, h5⟩
      rw [h1, hkey]
      simp

theorem diffLoopRemoved_fields (newL : List (String × TvPkg)) :
    ∀ (l : List (String × TvPkg)) (c : Changes),
      (diffLoopRemoved l newL c).removed_packages = c.removed_packages + l.countP (keyAbsent newL) ∧
      (diffLoopRemoved l newL c).new_packages = c.new_packages ∧
      (diffLoopRemoved l newL c).updated_packages = c.updated_packages ∧
      (diffLoopRemoved l newL c).price_changes = c.price_changes ∧
      (diffLoopRemoved l newL c).promotion_changes = c.promotion_changes := by
  intro l
  induction l with
  | nil => intro c; simp [diffLoopRemoved]
  | cons kv l ih =>
    intro c
    unfold diffLoopRemoved at ih ⊢
    rw [List.foldl_cons, List.countP_cons]
    cases hk : lookupD newL kv.1 with
    | none =>
      have hkey : keyAbsent newL kv = true := by simp [keyAbsent, hk]
      simp only [hk]
      rcases ih { c with removed_packages := c.removed_packages + 1 } with ⟨h1, h2, h3, h4, h5⟩
      refine ⟨?_, h2, h3, h4, h5⟩
      rw [h1, hkey]
      simp
      omega
    | some o =>
      have hkey : keyAbsent newL kv = false := by simp [keyAbsent, hk]
      simp only [hk]
      rcases ih c with ⟨h1, h2, h3, h4, h5⟩
      refine ⟨?_, h2, h3, h4, h5⟩
      rw [h1, hkey]
      simp

theorem updStep_preserves (oldL : List (String × TvPkg)) (c : Changes) (kv : String × TvPkg) :
    (updStep oldL c kv).new_packages = c.new_packages ∧
    (updStep oldL c kv).removed_packages = c.removed_packages := by
  unfold updStep
  cases lookupD oldL kv.1 with
  | none => exact ⟨rfl, rfl⟩
  | some o =>
    dsimp only
    repeat' split
    all_goals exact ⟨rfl, rfl⟩

theorem diffLoopUpdated_preserves (oldL : List (String × TvPkg)) :
    ∀ (l : List (String × TvPkg)) (c : Changes),
      (diffLoopUpdated oldL l c).new_packages = c.new_packages ∧
      (diffLoopUpdated oldL l c).removed_packages = c.removed_packages := by
  intro l
  induction l with
  | nil => intro c; exact ⟨rfl, rfl⟩
  | cons kv l ih =>
    intro c
    unfold diffLoopUpdated at ih ⊢
    rw [List.foldl_cons]
    rcases ih (updStep oldL c kv) with ⟨h1, h2⟩
    rcases updStep_preserves oldL c kv with ⟨g1, g2⟩
    exact ⟨h1.trans g1, h2.trans g2⟩

/-! ## Helper lemmas: the fiber validation filter -/

theorem fiberInner_inv (name : String) :
    ∀ (plans : List RawFiberPlan) (np : List FiberPlan),
      (∀ q ∈ np, 0 < q.hastighed_mbit ∧ 0 < q.pris_mdr) →
      ∀ q ∈ plans.foldl (fun np plan =>
          let normalized := normalizePlan name plan
          if 0 < normalized.hastighed_mbit ∧ 0 < normalized.pris_mdr then np ++ [normalized]
          else np) np,
        0 < q.hastighed_mbit ∧ 0 < q.pris_mdr := by
  intro plans
  induction plans with
  | nil => intro np h q hq; exact h q hq
  | cons plan plans ih =>
    intro np h q hq
    rw [List.foldl_cons] at hq
    refine ih _ ?_ q hq
    intro r hr
    dsimp only at hr
    split at hr
    · rcases List.mem_append.mp hr with h1 | h2
      · exact h r h1
      · rcases List.mem_singleton.mp h2 with rfl
        assumption
    · exact h r hr

theorem fiberStep_inv (acc : List FiberPlan) (p : FiberProvider)
    (h : ∀ q ∈ acc, 0 < q.hastighed_mbit ∧ 0 < q.pris_mdr) :
    ∀ q ∈ fiberStep acc p, 0 < q.hastighed_mbit ∧ 0 < q.pris_mdr := by
  intro q hq
  unfold fiberStep at hq
  split at hq
  · exact h q hq
  · split at hq
    · exact h q hq
    · rcases List.mem_append.mp hq with h1 | h2
      · exact h q h1
      · exact fiberInner_inv p.name _ [] (by intro r hr; cases hr) q h2

theorem scrape_all_providers_inv :
    ∀ (providers : List FiberProvider) (acc : List FiberPlan),
      (∀ q ∈ acc, 0 < q.hastighed_mbit ∧ 0 < q.pris_mdr) →
      ∀ q ∈ providers.foldl fiberStep acc, 0 < q.hastighed_mbit ∧ 0 < q.pris_mdr := by
  intro providers
  induction providers with
  | nil => intro acc h q hq; exact h q hq
  | cons p providers ih =>
    intro acc h q hq
    rw [List.foldl_cons] at hq
    exact ih _ (fiberStep_inv acc p h) q hq

/-! ## Sample fixtures used by the claim witnesses and counterexamples -/

/-- A well-formed TV package as a producer would return it. -/
def samplePkg : TvPkg :=
  { udbyder := "YouSee", pakke_navn := "Grundpakke", antal_kanaler := 20,
    pris_mdr := 299, kampagne := "", scraped_at := "", provider := "" }

/-- A TV provider whose producer raises. -/
def tvProviderError : TvProvider := ⟨"BadProv", Except.error "boom", true⟩

/-- A TV provider whose producer returns the empty list without raising. -/
def tvProviderEmpty : TvProvider := ⟨"EmptyProv", Except.ok [], true⟩

/-- A TV provider whose producer returns one well-formed package. -/
def tvProviderGood : TvProvider := ⟨"YouSee", Except.ok [samplePkg], true⟩

/-- A TV package violating the TV validation rule (no channels, price 0). -/
def invalidTvPkg : TvPkg :=
  { udbyder := "BadTV", pakke_navn := "Zero", antal_kanaler := 0,
    pris_mdr := 0, kampagne := "", scraped_at := "", provider := "" }

/-- A TV provider whose producer returns the invalid package. -/
def tvProviderInvalid : TvProvider := ⟨"BadTV", Except.ok [invalidTvPkg], true⟩

/-- A raw fiber plan with valid speed and price texts. -/
def sampleRawFiberPlan : RawFiberPlan :=
  { udbyder := none, hastighed_mbit := "100", pris_mdr := "99",
    bindingstid_mdr := "", kampagne := "", plan_navn := "Fiber100",
    beskrivelse := "", features := [], rating := 0 }

/-- A fiber provider whose producer returns one valid raw plan. -/
def fiberProviderGood : FiberProvider := ⟨"Hiper", Except.ok [sampleRawFiberPlan], true⟩

/-- Condition of claim C9: no price or promotion difference on keys shared
by the two snapshots. -/
def NoFieldChangesOnShared (A B : List TvPkg) : Prop :=
  ∀ kv ∈ buildLookup B, ∀ o, lookupD (buildLookup A) kv.1 = some o →
    o.pris_mdr = kv.2.pris_mdr ∧ o.kampagne = kv.2.kampagne

/-! ## Claim theorems -/

/-- C1: the claim says the identity key of `detect_changes` does not include
the monthly price and that the old/new single-record example with a price
move 100 → 120 yields `updated=1, price_changes=1, new=0, removed=0`.  The
code puts `pris_mdr` into the lookup key (scrape_tv.py line 210), so the
two records get distinct keys and the run is classified as one new plus one
removed package, with zero updated and zero price changes; the price-change
branch of the matched-key loop cannot fire on records whose fields are in
canonical form.  This theorem evaluates the embedded `detect_changes` at
exactly the claim's input, exhibiting the divergence. -/
theorem claim_C1_code_behavior :
    detect_changes
      [{ udbyder := "X", pakke_navn := "P", antal_kanaler := 0, pris_mdr := 100,
         kampagne := "", scraped_at := "", provider := "" }]
      [{ udbyder := "X", pakke_navn := "P", antal_kanaler := 0, pris_mdr := 120,
         kampagne := "", scraped_at := "", provider := "" }] =
      { new_packages := 1, updated_packages := 0, removed_packages := 1,
        price_changes := 0, promotion_changes := 0 } := by decide

/-- C2: the claim says every key shared between the snapshots whose price or
promotion differs contributes exactly 1 to `updated_packages`.  The
"Don't double count" guard (scrape_tv.py line 236) tests the global
`updated_packages` counter instead of a per-record flag, so once any record
has been counted, a later record whose only difference is its promotion is
not counted.  This theorem evaluates the embedded `detect_changes` on two
shared keys that both change promotion: the code reports `updated=1`
(and `promotion_changes=2`) where the claim requires `updated=2`. -/
theorem claim_C2_code_behavior :
    detect_changes
      [{ udbyder := "A", pakke_navn := "P", antal_kanaler := 0, pris_mdr := 100,
         kampagne := "x", scraped_at := "", provider := "" },
       { udbyder := "B", pakke_navn := "Q", antal_kanaler := 0, pris_mdr := 200,
         kampagne := "y", scraped_at := "", provider := "" }]
      [{ udbyder := "A", pakke_navn := "P", antal_kanaler := 0, pris_mdr := 100,
         kampagne := "x2", scraped_at := "", provider := "" },
       { udbyder := "B", pakke_navn := "Q", antal_kanaler := 0, pris_mdr := 200,
         kampagne := "y2", scraped_at := "", provider := "" }] =
      { new_packages := 0, updated_packages := 1, removed_packages := 0,
        price_changes := 0, promotion_changes := 2 } := by decide

/-- C5 counterexample: `normalize_speed` is not non-negative on every string
input: a negative number under a gigabit marker parses successfully and is
scaled, giving a negative result. -/
theorem claim_C5_counterexample :
    normalize_speed "-5 gb" = -5000 ∧ normalize_speed "-5 gb" < 0 := by
  exact ⟨by decide, by decide⟩

/-- C5 (amended): `normalize_speed` is total and returns an integer; its
result is non-negative for every input containing no minus sign, and empty
or malformed input yields 0.  (The original claim's unconditional
non-negativity fails, see the counterexample.) -/
theorem claim_C5_amended :
    (∀ s : String, (∀ c ∈ s.data, c ≠ '-') → 0 ≤ normalize_speed s) ∧
    normalize_speed "" = 0 ∧ normalize_speed "invalid" = 0 :=
  ⟨normalize_speed_nonneg, by decide, by decide⟩

/-- C5 witness: the amended theorem applied at the concrete input "500 mb". -/
theorem claim_C5_witness :
    (∀ c ∈ "500 mb".data, c ≠ '-') ∧ 0 ≤ normalize_speed "500 mb" :=
  ⟨by decide, claim_C5_amended.1 "500 mb" (by decide)⟩

/-- C8: `normalize_price` strips currency markers, whitespace and
separators, treats a comma as a decimal point and truncates without
rounding up (`"199,50"` gives 199, `"299 kr"` gives 299), and its result is
a non-negative integer on every string input. -/
theorem claim_C8_theorem :
    normalize_price "199,50" = 199 ∧ normalize_price "299 kr" = 299 ∧
    ∀ s : String, 0 ≤ normalize_price s :=
  ⟨by decide, by decide, normalize_price_nonneg⟩

/-- C3 counterexample: the fiber orchestrating run (`scrape_fiber.main`)
invokes save unconditionally — it computes no ChangeSet and has no force
flag — so even a run collecting no plans at all (old and new snapshot both
trivially identical and empty) performs two save invocations, contradicting
"save is invoked if and only if the ChangeSet is non-zero or force is
set". -/
theorem claim_C3_counterexample :
    (fiberMain []).saves ≠ [] ∧ (fiberMain []).saves.length = 2 := by
  exact ⟨by decide, rfl⟩

/-- C3 (amended): for the TV (and mobile) orchestrating run, on a non-empty
scrape the snapshot is saved if and only if some change counter is non-zero
or the force flag is set; the fiber orchestrating run instead performs no
change detection and always invokes save (twice). -/
theorem claim_C3_amended :
    (∀ (existing : List TvPkg) (providers : List TvProvider) (stype now : String) (force : Bool),
      (scrape_tv_providers providers stype now).packages ≠ [] →
      ((tvMain existing providers stype now force).savedData.isSome = true ↔
        (anyChangesB (detect_changes existing
            (scrape_tv_providers providers stype now).packages) = true ∨ force = true))) ∧
    ∀ providers : List FiberProvider, (fiberMain providers).saves.length = 2 := by
  constructor
  · intro existing providers stype now force h
    simp only [tvMain]
    rw [if_neg h]
    by_cases hb : (anyChangesB (detect_changes existing
        (scrape_tv_providers providers stype now).packages) || force) = true
    · rw [if_pos hb]
      rw [Bool.or_eq_true] at hb
      simpa using hb
    · rw [if_neg hb]
      rw [Bool.or_eq_true] at hb
      simpa using hb
  · intro providers
    rfl

/-- C3 witness: the amended theorem applied at a concrete run with one
producing provider and an empty previous snapshot (one new package, so the
diff is non-empty and the snapshot is saved). -/
theorem claim_C3_witness :
    (scrape_tv_providers [tvProviderGood] "full" "t0").packages ≠ [] ∧
    ((tvMain [] [tvProviderGood] "full" "t0" false).savedData.isSome = true ↔
      (anyChangesB (detect_changes []
          (scrape_tv_providers [tvProviderGood] "full" "t0").packages) = true ∨ false = true)) :=
  ⟨by decide, claim_C3_amended.1 [] [tvProviderGood] "full" "t0" false (by decide)⟩

/-- C4 counterexample: a TV run collecting zero records logs the error and
skips the save, but terminates normally: the embedded `main` yields exit
code 0, not the non-zero exit / failure signal required by the claim. -/
theorem claim_C4_counterexample :
    (scrape_tv_providers [] "full" "t0").packages = [] ∧
    tvMain [] [] "full" "t0" false =
      { savedData := none, errorLogged := true, exitCode := 0 } := by
  exact ⟨rfl, rfl⟩

/-- C4 (amended): when the TV (or mobile) run collects zero records it
writes no snapshot and logs an error, but exits with status 0 (the code
plain-returns, producing no failure exit); the fiber run does not even
check for emptiness and unconditionally writes the empty snapshot. -/
theorem claim_C4_amended :
    (∀ (existing : List TvPkg) (providers : List TvProvider) (stype now : String) (force : Bool),
      (scrape_tv_providers providers stype now).packages = [] →
      tvMain existing providers stype now force =
        { savedData := none, errorLogged := true, exitCode := 0 }) ∧
    (fiberMain []).saves = [("data/fiber.json", []), ("scraper/data/fiber.json", [])] := by
  constructor
  · intro existing providers stype now force h
    simp only [tvMain]
    rw [if_pos h]
  · rfl

/-- C4 witness: the amended theorem applied at a concrete run whose only
provider raises, so that zero records are collected. -/
theorem claim_C4_witness :
    (scrape_tv_providers [tvProviderError] "full" "t0").packages = [] ∧
    tvMain [] [tvProviderError] "full" "t0" false =
      { savedData := none, errorLogged := true, exitCode := 0 } :=
  ⟨by decide, claim_C4_amended.1 [] [tvProviderError] "full" "t0" false (by decide)⟩

/-- C6 counterexample: the TV aggregator applies no validation, so a
producer record with `antal_kanaler = 0` and `pris_mdr = 0` flows through
tagging, makes the diff non-empty, and is persisted by the TV `main` —
the persisted snapshot contains a record violating the TV rule
(channel_count > 0 and monthly_price > 0). -/
theorem claim_C6_counterexample :
    (tvMain [] [tvProviderInvalid] "full" "t0" false).savedData =
      some [{ udbyder := "BadTV", pakke_navn := "Zero", antal_kanaler := 0,
              pris_mdr := 0, kampagne := "", scraped_at := "t0", provider := "BadTV" }] ∧
    ¬(0 < (0 : Int) ∧ 0 < (0 : Int)) := by
  exact ⟨by decide, by decide⟩

/-- C6 (amended): every fiber candidate failing the
`hastighed_mbit > 0 and pris_mdr > 0` rule is dropped before persistence —
every record produced by `scrape_all_providers` satisfies the rule; the TV
and mobile aggregators apply no validation at all (see the counterexample,
where an invalid TV record is persisted unchanged). -/
theorem claim_C6_amended (providers : List FiberProvider) :
    ∀ q ∈ scrape_all_providers providers, 0 < q.hastighed_mbit ∧ 0 < q.pris_mdr := by
  intro q hq
  exact scrape_all_providers_inv providers [] (by intro r hr; cases hr) q hq

/-- C6 witness: the amended theorem applied to the record produced by a
concrete valid fiber provider. -/
def sampleNormalizedFiberPlan : FiberPlan :=
  { udbyder := "Hiper", hastighed_mbit := 100, pris_mdr := 99,
    bindingstid_mdr := 0, kampagne := "", plan_navn := "Fiber100",
    beskrivelse := "", features := [], rating := 0 }

/-- C6 witness: the amended theorem applied to the record produced by the
concrete valid fiber provider. -/
theorem claim_C6_witness :
    sampleNormalizedFiberPlan ∈ scrape_all_providers [fiberProviderGood] ∧
    (0 < sampleNormalizedFiberPlan.hastighed_mbit ∧ 0 < sampleNormalizedFiberPlan.pris_mdr) :=
  ⟨by decide, claim_C6_amended [fiberProviderGood] sampleNormalizedFiberPlan (by decide)⟩

/-- C7: a single enabled, invoked provider whose producer raises contributes
zero records, adds exactly one to the failure count, leaves the success
count unchanged, and the batch continues over the remaining providers in
order — the aggregate over the other providers is exactly what it would
have been without the failing provider. -/
theorem claim_C7_theorem
    (ps₁ ps₂ : List TvProvider) (p : TvProvider) (msg stype now : String)
    (hen : p.enabled = true) (herr : p.scraper = Except.error msg)
    (hinv : stype = "light" → p.name ∈ lightTvAllowlist) :
    (scrape_tv_providers (ps₁ ++ p :: ps₂) stype now).packages
      = (scrape_tv_providers (ps₁ ++ ps₂) stype now).packages ∧
    (scrape_tv_providers (ps₁ ++ p :: ps₂) stype now).successful
      = (scrape_tv_providers (ps₁ ++ ps₂) stype now).successful ∧
    (scrape_tv_providers (ps₁ ++ p :: ps₂) stype now).failed
      = (scrape_tv_providers (ps₁ ++ ps₂) stype now).failed + 1 := by
  unfold scrape_tv_providers
  rw [List.foldl_append, List.foldl_append, List.foldl_cons,
    tvStep_error stype now _ p msg hen herr hinv,
    foldl_tvStep_add stype now ps₂
      { List.foldl (tvStep stype now) ⟨[], 0, 0⟩ ps₁ with
        failed := (List.foldl (tvStep stype now) ⟨[], 0, 0⟩ ps₁).failed + 1 },
    foldl_tvStep_add stype now ps₂ (List.foldl (tvStep stype now) ⟨[], 0, 0⟩ ps₁)]
  refine ⟨rfl, rfl, ?_⟩
  simp [addAgg]
  omega

/-- C7 witness: the theorem applied at a concrete configuration consisting
of just one raising provider. -/
theorem claim_C7_witness :
    tvProviderError.enabled = true ∧
    (scrape_tv_providers [tvProviderError] "full" "t0").packages = [] ∧
    (scrape_tv_providers [tvProviderError] "full" "t0").failed
      = (scrape_tv_providers ([] : List TvProvider) "full" "t0").failed + 1 := by
  have h := claim_C7_theorem [] [] tvProviderError "boom" "full" "t0" rfl rfl
    (fun hh => absurd hh (by decide))
  exact ⟨rfl, h.1, h.2.2⟩

/-- C9: for any two snapshots, the new count of `diff(A,B)` equals the
removed count of `diff(B,A)` and vice versa, under the claim's side
condition that no price/promotion differences occur on shared keys (the
proof does not in fact use the side condition: both counts reduce to the
number of keys of one lookup absent from the other). -/
theorem claim_C9_theorem (A B : List TvPkg) (h : NoFieldChangesOnShared A B) :
    (detect_changes A B).new_packages = (detect_changes B A).removed_packages ∧
    (detect_changes A B).removed_packages = (detect_changes B A).new_packages := by
  have e1 : (detect_changes A B).new_packages
      = (buildLookup B).countP (keyAbsent (buildLookup A)) := by
    simp only [detect_changes]
    rw [(diffLoopUpdated_preserves _ _ _).1, (diffLoopRemoved_fields _ _ _).2.1,
      (diffLoopNew_fields _ _ _).1]
    simp
  have e2 : (detect_changes B A).removed_packages
      = (buildLookup B).countP (keyAbsent (buildLookup A)) := by
    simp only [detect_changes]
    rw [(diffLoopUpdated_preserves _ _ _).2, (diffLoopRemoved_fields _ _ _).1,
      (diffLoopNew_fields _ _ _).2.2.1]
    simp
  have e3 : (detect_changes A B).removed_packages
      = (buildLookup A).countP (keyAbsent (buildLookup B)) := by
    simp only [detect_changes]
    rw [(diffLoopUpdated_preserves _ _ _).2, (diffLoopRemoved_fields _ _ _).1,
      (diffLoopNew_fields _ _ _).2.2.1]
    simp
  have e4 : (detect_changes B A).new_packages
      = (buildLookup A).countP (keyAbsent (buildLookup B)) := by
    simp only [detect_changes]
    rw [(diffLoopUpdated_preserves _ _ _).1, (diffLoopRemoved_fields _ _ _).2.1,
      (diffLoopNew_fields _ _ _).1]
    simp
  exact ⟨e1.trans e2.symm, e3.trans e4.symm⟩

/-- C9 witness: the theorem applied at the concrete pair consisting of a
one-record snapshot and the empty snapshot (the side condition holds
vacuously, and the counts are 0 = 0 and 1 = 1). -/
theorem claim_C9_witness :
    NoFieldChangesOnShared [samplePkg] [] ∧
    ((detect_changes [samplePkg] []).new_packages
        = (detect_changes [] [samplePkg]).removed_packages ∧
      (detect_changes [samplePkg] []).removed_packages
        = (detect_changes [] [samplePkg]).new_packages) :=
  ⟨(by intro kv hkv; cases hkv),
   claim_C9_theorem [samplePkg] [] (by intro kv hkv; cases hkv)⟩

/-- C10: a single enabled, invoked provider whose producer returns the
empty list contributes zero records and is counted as a failure, not a
success — the resulting aggregate state is literally identical to the one
produced when the same provider raises instead, so the two conditions are
indistinguishable in the reported counts; the batch continues over the
remaining providers. -/
theorem claim_C10_theorem
    (ps₁ ps₂ : List TvProvider) (p : TvProvider) (stype now : String)
    (hen : p.enabled = true) (hok : p.scraper = Except.ok ([] : List TvPkg))
    (hinv : stype = "light" → p.name ∈ lightTvAllowlist) :
    scrape_tv_providers (ps₁ ++ p :: ps₂) stype now
      = scrape_tv_providers (ps₁ ++ { p with scraper := Except.error "fetch failed" } :: ps₂)
          stype now ∧
    (scrape_tv_providers (ps₁ ++ p :: ps₂) stype now).packages
      = (scrape_tv_providers (ps₁ ++ ps₂) stype now).packages ∧
    (scrape_tv_providers (ps₁ ++ p :: ps₂) stype now).successful
      = (scrape_tv_providers (ps₁ ++ ps₂) stype now).successful ∧
    (scrape_tv_providers (ps₁ ++ p :: ps₂) stype now).failed
      = (scrape_tv_providers (ps₁ ++ ps₂) stype now).failed + 1 := by
  have hstep : ∀ s, tvStep stype now s p = { s with failed := s.failed + 1 } :=
    fun s => tvStep_empty stype now s p hen hok hinv
  have hstep' : ∀ s, tvStep stype now s { p with scraper := Except.error "fetch failed" }
      = { s with failed := s.failed + 1 } :=
    fun s => tvStep_error stype now s _ "fetch failed" hen rfl hinv
  constructor
  · unfold scrape_tv_providers
    rw [List.foldl_append, List.foldl_append, List.foldl_cons, List.foldl_cons,
      hstep, hstep']
  · unfold scrape_tv_providers
    rw [List.foldl_append, List.foldl_append, List.foldl_cons, hstep,
      foldl_tvStep_add stype now ps₂
        { List.foldl (tvStep stype now) ⟨[], 0, 0⟩ ps₁ with
          failed := (List.foldl (tvStep stype now) ⟨[], 0, 0⟩ ps₁).failed + 1 },
      foldl_tvStep_add stype now ps₂ (List.foldl (tvStep stype now) ⟨[], 0, 0⟩ ps₁)]
    refine ⟨rfl, rfl, ?_⟩
    simp [addAgg]
    omega

/-- C10 witness: the theorem applied at a concrete configuration consisting
of one empty-returning provider. -/
theorem claim_C10_witness :
    tvProviderEmpty.enabled = true ∧
    scrape_tv_providers [tvProviderEmpty] "full" "t0"
      = scrape_tv_providers [{ tvProviderEmpty with scraper := Except.error "fetch failed" }]
          "full" "t0" ∧
    (scrape_tv_providers [tvProviderEmpty] "full" "t0").failed
      = (scrape_tv_providers ([] : List TvProvider) "full" "t0").failed + 1 := by
  have h := claim_C10_theorem [] [] tvProviderEmpty "full" "t0" rfl rfl
    (fun hh => absurd hh (by decide))
  exact ⟨rfl, h.1, h.2.2.2⟩
